import Mathlib

/-!
Verification of the PaisaPrompt single-page app (src/App.tsx): a shallow
embedding of its form state, prompt construction, generation effect trace,
and UI event loop, with theorems settling the specification claims.
-/

/-- JavaScript JSON values as produced by JSON.parse.  Numeric literals are
kept as their raw lexeme text: no claim depends on numeric value, only on
the shape of parsed values. -/
inductive Json where
  | null : Json
  | bool (b : Bool) : Json
  | num (lit : String) : Json
  | str (s : String) : Json
  | arr (xs : List Json) : Json
  | obj (fields : List (String × Json)) : Json

/-- JSON whitespace characters accepted by JSON.parse. -/
def isJsonWs (c : Char) : Bool :=
  c = ' ' || c = '\n' || c = '\t' || c = '\r'

/-- Drop leading JSON whitespace. -/
def skipWs : List Char → List Char
  | [] => []
  | c :: cs => if isJsonWs c then skipWs cs else c :: cs

/-- Value of a hexadecimal digit, for \u escapes. -/
def hexVal (c : Char) : Option Nat :=
  if '0' ≤ c ∧ c ≤ '9' then some (c.toNat - '0'.toNat)
  else if 'a' ≤ c ∧ c ≤ 'f' then some (c.toNat - 'a'.toNat + 10)
  else if 'A' ≤ c ∧ c ≤ 'F' then some (c.toNat - 'A'.toNat + 10)
  else none

/-- Parse the body of a JSON string literal (the opening quote already
consumed), accumulating characters in reverse. -/
def parseStringAux : List Char → List Char → Option (String × List Char)
  | [], _ => none
  | c :: cs, acc =>
    if c = '"' then some (String.mk acc.reverse, cs)
    else if c = '\\' then
      match cs with
      | [] => none
      | e :: cs2 =>
        if e = '"' then parseStringAux cs2 ('"' :: acc)
        else if e = '\\' then parseStringAux cs2 ('\\' :: acc)
        else if e = '/' then parseStringAux cs2 ('/' :: acc)
        else if e = 'n' then parseStringAux cs2 ('\n' :: acc)
        else if e = 't' then parseStringAux cs2 ('\t' :: acc)
        else if e = 'r' then parseStringAux cs2 ('\r' :: acc)
        else if e = 'b' then parseStringAux cs2 (Char.ofNat 8 :: acc)
        else if e = 'f' then parseStringAux cs2 (Char.ofNat 12 :: acc)
        else if e = 'u' then
          match cs2 with
          | h1 :: h2 :: h3 :: h4 :: cs3 =>
            match hexVal h1, hexVal h2, hexVal h3, hexVal h4 with
            | some a, some b, some c3, some d =>
                parseStringAux cs3 (Char.ofNat (a * 4096 + b * 256 + c3 * 16 + d) :: acc)
            | _, _, _, _ => none
          | _ => none
        else none
    else parseStringAux cs (c :: acc)

/-- Take a maximal run of decimal digits. -/
def spanDigits : List Char → List Char × List Char
  | [] => ([], [])
  | c :: cs =>
    if c.isDigit then
      let (ds, rest) := spanDigits cs
      (c :: ds, rest)
    else ([], c :: cs)

/-- Parse a JSON numeric literal, returning its raw lexeme. -/
def parseNumber (cs : List Char) : Option (String × List Char) :=
  let (neg, cs1) := match cs with
    | '-' :: rest => (['-'], rest)
    | _ => ([], cs)
  let (intPart, cs2) := spanDigits cs1
  if intPart = [] then none
  else
    let (fracPart, cs3) := match cs2 with
      | '.' :: rest =>
        let (ds, r) := spanDigits rest
        if ds = [] then (([] : List Char), cs2) else ('.' :: ds, r)
      | _ => ([], cs2)
    let (expPart, cs4) := match cs3 with
      | 'e' :: rest => match rest with
        | '+' :: r2 => (let (ds, r) := spanDigits r2; if ds = [] then (([] : List Char), cs3) else ('e' :: '+' :: ds, r))
        | '-' :: r2 => (let (ds, r) := spanDigits r2; if ds = [] then (([] : List Char), cs3) else ('e' :: '-' :: ds, r))
        | _ => (let (ds, r) := spanDigits rest; if ds = [] then (([] : List Char), cs3) else ('e' :: ds, r))
      | 'E' :: rest => match rest with
        | '+' :: r2 => (let (ds, r) := spanDigits r2; if ds = [] then (([] : List Char), cs3) else ('E' :: '+' :: ds, r))
        | '-' :: r2 => (let (ds, r) := spanDigits r2; if ds = [] then (([] : List Char), cs3) else ('E' :: '-' :: ds, r))
        | _ => (let (ds, r) := spanDigits rest; if ds = [] then (([] : List Char), cs3) else ('E' :: ds, r))
      | _ => ([], cs3)
    some (String.mk (neg ++ intPart ++ fracPart ++ expPart), cs4)

mutual

/-- Fuel-indexed recursive-descent JSON value parser. -/
def parseValue : Nat → List Char → Option (Json × List Char)
  | 0, _ => none
  | fuel + 1, cs =>
    match skipWs cs with
    | [] => none
    | c :: rest =>
      if c = '\x7b' then
        match skipWs rest with
        | d :: rest2 =>
          if d = '\x7d' then some (Json.obj [], rest2)
          else
            match parseMembers fuel (d :: rest2) with
            | some (ms, rest3) => some (Json.obj ms, rest3)
            | none => none
        | [] => none
      else if c = '[' then
        match skipWs rest with
        | d :: rest2 =>
          if d = ']' then some (Json.arr [], rest2)
          else
            match parseElements fuel (d :: rest2) with
            | some (xs, rest3) => some (Json.arr xs, rest3)
            | none => none
        | [] => none
      else if c = '"' then
        match parseStringAux rest [] with
        | some (s, rest2) => some (Json.str s, rest2)
        | none => none
      else if c = 't' then
        match rest with
        | 'r' :: 'u' :: 'e' :: rest2 => some (Json.bool true, rest2)
        | _ => none
      else if c = 'f' then
        match rest with
        | 'a' :: 'l' :: 's' :: 'e' :: rest2 => some (Json.bool false, rest2)
        | _ => none
      else if c = 'n' then
        match rest with
        | 'u' :: 'l' :: 'l' :: rest2 => some (Json.null, rest2)
        | _ => none
      else
        match parseNumber (c :: rest) with
        | some (lit, rest2) => some (Json.num lit, rest2)
        | none => none
termination_by structural fuel _ => fuel

/-- Parse one or more `"key": value` members of a JSON object. -/
def parseMembers : Nat → List Char → Option (List (String × Json) × List Char)
  | 0, _ => none
  | fuel + 1, cs =>
    match skipWs cs with
    | [] => none
    | c :: rest =>
      if c = '"' then
        match parseStringAux rest [] with
        | some (key, rest2) =>
          match skipWs rest2 with
          | ':' :: rest3 =>
            match parseValue fuel rest3 with
            | some (v, rest4) =>
              match skipWs rest4 with
              | ',' :: rest5 =>
                match parseMembers fuel rest5 with
                | some (ms, rest6) => some ((key, v) :: ms, rest6)
                | none => none
              | d :: rest5 =>
                if d = '\x7d' then some ([(key, v)], rest5) else none
              | [] => none
            | none => none
          | _ => none
        | none => none
      else none
termination_by structural fuel _ => fuel

/-- Parse one or more elements of a JSON array. -/
def parseElements : Nat → List Char → Option (List Json × List Char)
  | 0, _ => none
  | fuel + 1, cs =>
    match parseValue fuel cs with
    | some (v, rest) =>
      match skipWs rest with
      | ',' :: rest2 =>
        match parseElements fuel rest2 with
        | some (xs, rest3) => some (v :: xs, rest3)
        | none => none
      | ']' :: rest2 => some ([v], rest2)
      | _ => none
    | none => none
termination_by structural fuel _ => fuel

end

/-- JSON.parse: parse a complete JSON document, rejecting trailing garbage.
Fails (models a thrown SyntaxError) by returning none. -/
def parseJson (s : String) : Option Json :=
  match parseValue (s.length * 2 + 16) s.data with
  | some (v, rest) => if skipWs rest = [] then some v else none
  | none => none

example : parseJson "\x7b\x7d" = some (Json.obj []) := rfl
example : parseJson "not json" = none := rfl
example : parseJson " [1, true, \"a\"] " =
    some (Json.arr [Json.num "1", Json.bool true, Json.str "a"]) := rfl
example : parseJson "\x7b\"a\": null\x7d" = some (Json.obj [("a", Json.null)]) := rfl

/-- The form record held in the App component's details state
(src/App.tsx lines 5-19).  At runtime every field is a string; mode and
language carry the literal union values used by the code
("collect"/"negotiate", "Hinglish"/"English"). -/
structure SituationDetails where
  mode : String
  amount : String
  overdue : String
  relationship : String
  channel : String
  language : String
  customerName : String
  yourName : String
  otherInfo : String
  delayReason : String
  proposedSolution : String
  customReason : String
  customSolution : String
deriving DecidableEq, Repr

/-- DELAY_REASONS constant (src/App.tsx lines 35-42). -/
def DELAY_REASONS : List String :=
  ["Cash flow issues", "Waiting for another payment", "Medical/Family emergency",
   "Technical error in banking", "Forgot in busy schedule", "Other (Custom)"]

/-- PROPOSED_SOLUTIONS constant (src/App.tsx lines 44-50). -/
def PROPOSED_SOLUTIONS : List String :=
  ["Pay 50% now, rest in 1 week", "Clear full amount by next Friday",
   "Need a small discount/waiver", "Requesting extra 15 days", "Other (Custom)"]

/-- The initial details record passed to useState (src/App.tsx lines 69-83). -/
def initDetails : SituationDetails where
  mode := "collect"
  amount := ""
  overdue := ""
  relationship := "Client"
  channel := "WhatsApp"
  language := "Hinglish"
  customerName := ""
  yourName := ""
  otherInfo := ""
  delayReason := "Cash flow issues"
  proposedSolution := "Pay 50% now, rest in 1 week"
  customReason := ""
  customSolution := ""

/-- JavaScript `s || dflt` on strings: the empty string is falsy. -/
def jsOr (s dflt : String) : String :=
  if s = "" then dflt else s

/-- finalReason (src/App.tsx line 106): the sentinel selection is replaced
by the custom free-text field. -/
def finalReason (d : SituationDetails) : String :=
  if d.delayReason = "Other (Custom)" then d.customReason else d.delayReason

/-- finalSolution (src/App.tsx line 107). -/
def finalSolution (d : SituationDetails) : String :=
  if d.proposedSolution = "Other (Custom)" then d.customSolution else d.proposedSolution

/-- The Hinglish tone/vocabulary literal (src/App.tsx line 110). -/
def hinglishInstruction : String :=
  "Use natural Hinglish (mix of simple Hindi + English) in Roman script. Use words like \x27bhai\x27, \x27sir\x27, \x27ma\x27am\x27, \x27yaar\x27 appropriately. Never use Devanagari."

/-- The English tone/vocabulary literal (src/App.tsx line 111). -/
def englishInstruction : String :=
  "Use professional, polite, and warm English. Maintain a helpful and respectful tone."

/-- The ternary choosing the language instruction (src/App.tsx lines 109-111). -/
def languageInstruction (lang : String) : String :=
  if lang = "Hinglish" then hinglishInstruction else englishInstruction

/-- The fixed text of the system-instruction template before the
interpolated language instruction (src/App.tsx lines 113-114). -/
def sysInstrPre : String :=
  "You are an expert in creating polite, high-success-rate payment reminders for India. \n      Language Requirement: "

/-- The fixed text of the system-instruction template after the
interpolated language instruction (src/App.tsx lines 114-127). -/
def sysInstrPost : String :=
  "\n      Tone: Respectful, professional, friendly, never threatening. Use psychological levers like Reciprocity, Commitment, and Face-saving.\n      \n      STRUCTURE RULES:\n      1. Situation summary: 1 short sentence in English.\n      2. Key psychological principles: List 3-6 items.\n      3. Message Variants:\n         - Variant A: Sabse zyada warm (most empathetic)\n         - Variant B: Reciprocity focus (remind of value/service provided)\n         - Variant C: Soft time sensitivity + easy call-to-action\n         - Variant D: Face-saving excuse (busy life/system error) + positive future.\n      4. Voice Note script: Short spoken opener in the selected language.\n      \n      IMPORTANT: Ensure all messages end with a clear Call to Action. Length: 80-180 words each. Do not use placeholders like [Your Name] if names are provided."

/-- systemInstruction template (src/App.tsx lines 113-127): fixed text with
only the language instruction interpolated. -/
def systemInstruction (d : SituationDetails) : String :=
  sysInstrPre ++ languageInstruction d.language ++ sysInstrPost

/-- The userPrompt template text up to and including the 8-space indent that
precedes the conditional negotiate block (src/App.tsx lines 129-138). -/
def promptHead (d : SituationDetails) : String :=
  "\n        Mode: " ++ d.mode ++
  "\n        Amount: " ++ d.amount ++
  "\n        Relationship: " ++ d.relationship ++
  "\n        Channel: " ++ d.channel ++
  "\n        Target Language: " ++ d.language ++
  "\n        Customer Name: " ++ jsOr d.customerName ("Customer") ++
  "\n        Sender Name: " ++ jsOr d.yourName ("Sender") ++
  "\n        How long overdue: " ++ d.overdue ++
  "\n        "

/-- The nested template used when mode is negotiate (src/App.tsx line 138). -/
def negotiateBlock (d : SituationDetails) : String :=
  "Reason for Delay: " ++ finalReason d ++ "\nProposed Solution: " ++ finalSolution d

/-- The userPrompt template text after the conditional negotiate block
(src/App.tsx lines 139-140). -/
def promptTail (d : SituationDetails) : String :=
  "\n        Additional Context: " ++ d.otherInfo ++ "\n      "

/-- userPrompt (src/App.tsx lines 129-140). -/
def userPrompt (d : SituationDetails) : String :=
  promptHead d ++ (if d.mode = "negotiate" then negotiateBlock d else "") ++ promptTail d

/-- The outbound request handed to ai.models.generateContent
(src/App.tsx lines 142-170).  The response mime type and schema directive
are fixed literals and carry no data from the situation record. -/
structure GenRequest where
  model : String
  contents : String
  systemInstruction : String
deriving DecidableEq, Repr

/-- Request construction inside generateOutput (src/App.tsx lines 142-146). -/
def buildRequest (d : SituationDetails) : GenRequest where
  model := "gemini-3-flash-preview"
  contents := userPrompt d
  systemInstruction := systemInstruction d

/-- One observable effect of a generateOutput run: a React state setter call,
the outbound network call, or the console diagnostic. -/
inductive Effect where
  | setLoading (b : Bool) : Effect
  | setError (e : Option String) : Effect
  | setResult (r : Option Json) : Effect
  | networkCall (req : GenRequest) : Effect
  | consoleError : Effect

/-- Outcome of the awaited external generation call: either the promise
rejects (throws), or it resolves with response.text, which the SDK types as
string or undefined (modelled as Option String). -/
inductive NetOutcome where
  | throws : NetOutcome
  | returns (text : Option String) : NetOutcome
deriving DecidableEq, Repr

/-- The local validation error message (src/App.tsx line 96). -/
def validationMsg : String := "Please enter the amount."

/-- The single generic generation error message (src/App.tsx line 176). -/
def genericErrorMsg : String := "Something went wrong. Please check your inputs and try again."

/-- JavaScript `response.text || \x27\x7b\x7d\x27` (src/App.tsx line 172):
undefined or empty text falls back to the literal two-character object text. -/
def effText (t : Option String) : String :=
  match t with
  | none => "\x7b\x7d"
  | some s => if s = "" then "\x7b\x7d" else s

/-- The effects generateOutput performs after the awaited call settles
(src/App.tsx lines 172-179): on resolution, JSON.parse of the (defaulted)
text is stored via setResult; a rejection or parse failure is logged and
converted to the generic error; the finally block always clears loading. -/
def settleEffects (o : NetOutcome) : List Effect :=
  (match o with
   | NetOutcome.throws => [Effect.consoleError, Effect.setError (some genericErrorMsg)]
   | NetOutcome.returns t =>
     match parseJson (effText t) with
     | some v => [Effect.setResult (some v)]
     | none => [Effect.consoleError, Effect.setError (some genericErrorMsg)]) ++
  [Effect.setLoading false]

/-- The full ordered effect trace of one generateOutput run
(src/App.tsx lines 94-180), given the details record at click time and the
outcome of the external call. -/
def genTrace (d : SituationDetails) (o : NetOutcome) : List Effect :=
  if d.amount = "" then [Effect.setError (some validationMsg)]
  else
    [Effect.setLoading true, Effect.setError none, Effect.setResult none,
     Effect.networkCall (buildRequest d)] ++ settleEffects o

/-- The App component's pieces of useState (src/App.tsx lines 69-87).
The stored result is a raw parsed JSON value: the code performs no runtime
validation against the Result interface. -/
structure AppState where
  details : SituationDetails
  loading : Bool
  result : Option Json
  error : Option String
  copiedId : Option String

/-- Interpretation of one effect as a state update; the network call and
console log do not change React state. -/
def applyEffect (s : AppState) : Effect → AppState
  | Effect.setLoading b => { s with loading := b }
  | Effect.setError e => { s with error := e }
  | Effect.setResult r => { s with result := r }
  | Effect.networkCall _ => s
  | Effect.consoleError => s

/-- The state after a whole generateOutput run. -/
def runGen (s : AppState) (o : NetOutcome) : AppState :=
  (genTrace s.details o).foldl applyEffect s

/-- The App state right after mount (src/App.tsx lines 69-87). -/
def initAppState : AppState where
  details := initDetails
  loading := false
  result := none
  error := none
  copiedId := none

/-- Is a JSON value a string? -/
def isStringJ : Json → Bool
  | Json.str _ => true
  | _ => false

/-- Property lookup on a parsed JSON object; with duplicate keys,
JSON.parse keeps the last binding, so later members win. -/
def lookupField (fs : List (String × Json)) (key : String) : Option Json :=
  match fs with
  | [] => none
  | (k, v) :: rest =>
    match lookupField rest key with
    | some r => some r
    | none => if k = key then some v else none

/-- Conformance to the GeneratedMessage interface (src/App.tsx lines 21-25). -/
def isVariantShape : Json → Bool
  | Json.obj fs =>
    (match lookupField fs ("variant") with | some (Json.str _) => true | _ => false) &&
    (match lookupField fs ("title") with | some (Json.str _) => true | _ => false) &&
    (match lookupField fs ("content") with | some (Json.str _) => true | _ => false)
  | _ => false

/-- Conformance to the Result interface (src/App.tsx lines 27-32):
summary and voiceNote strings, principles an array of strings, variants an
array of GeneratedMessage-shaped objects. -/
def isResultShape : Json → Bool
  | Json.obj fs =>
    (match lookupField fs ("summary") with | some (Json.str _) => true | _ => false) &&
    (match lookupField fs ("principles") with | some (Json.arr xs) => xs.all isStringJ | _ => false) &&
    (match lookupField fs ("variants") with | some (Json.arr xs) => xs.all isVariantShape | _ => false) &&
    (match lookupField fs ("voiceNote") with | some (Json.str _) => true | _ => false)
  | _ => false

/-- selectMode, the shared behaviour of the two mode buttons
(src/App.tsx lines 194-205): setDetails keeps every other field and sets
mode, and setResult(null) clears any previous result. -/
def selectMode (mode : String) (s : AppState) : AppState :=
  { s with details := { s.details with mode := mode }, result := none }

/-- The name attribute of a controlled input handled by handleInputChange
(src/App.tsx lines 89-92); mode is changed only by the two buttons. -/
inductive FieldName where
  | amount | overdue | relationship | channel | language
  | customerName | yourName | otherInfo
  | delayReason | proposedSolution | customReason | customSolution
deriving DecidableEq, Repr

/-- handleInputChange (src/App.tsx lines 89-92): spread the previous record
and overwrite the named field with the event value. -/
def setField (f : FieldName) (v : String) (d : SituationDetails) : SituationDetails :=
  match f with
  | FieldName.amount => { d with amount := v }
  | FieldName.overdue => { d with overdue := v }
  | FieldName.relationship => { d with relationship := v }
  | FieldName.channel => { d with channel := v }
  | FieldName.language => { d with language := v }
  | FieldName.customerName => { d with customerName := v }
  | FieldName.yourName => { d with yourName := v }
  | FieldName.otherInfo => { d with otherInfo := v }
  | FieldName.delayReason => { d with delayReason := v }
  | FieldName.proposedSolution => { d with proposedSolution := v }
  | FieldName.customReason => { d with customReason := v }
  | FieldName.customSolution => { d with customSolution := v }

/-- The GeneratedMessage interface (src/App.tsx lines 21-25), as rendered in
a variant card. -/
structure GeneratedMessage where
  variant : String
  title : String
  content : String
deriving DecidableEq, Repr

/-- The copied-indicator key the view passes to copyToClipboard for the
variant card at index i (src/App.tsx line 341). -/
def variantKey (v : GeneratedMessage) (i : Nat) : String :=
  v.variant ++ "-" ++ toString i

/-- The setTimeout delay used by copyToClipboard (src/App.tsx line 185). -/
def copyDelayMs : Nat := 2000

/-- A discrete UI event: an input edit, a mode button, the generate button,
the in-flight generation promise settling, a variant card's copy button, or
a scheduled copy-acknowledgement timer firing. -/
inductive UiEvent where
  | input (f : FieldName) (v : String) : UiEvent
  | clickCollect : UiEvent
  | clickNegotiate : UiEvent
  | clickGenerate : UiEvent
  | settle (o : NetOutcome) : UiEvent
  | clickCopy (v : GeneratedMessage) (i : Nat) : UiEvent
  | timerFire : UiEvent
deriving DecidableEq, Repr

/-- The page session: React state plus the environment the component talks
to — in-flight generation requests, scheduled copy-acknowledgement timers
(each recorded with its delay in milliseconds), and the clipboard write log
(most recent last). -/
structure Machine where
  app : AppState
  pending : List GenRequest
  timers : List Nat
  clipboard : List String

/-- One UI event step.  clickGenerate follows generateOutput
(src/App.tsx lines 94-102 and 289-292): the button is disabled while
loading; an empty amount only sets the validation error; otherwise the
pre-await setter calls run and the request goes in flight.  settle applies
the post-await effects of the oldest in-flight request.  clickCopy follows
copyToClipboard (src/App.tsx lines 182-186): clipboard write, indicator
set, timer scheduled.  timerFire runs one scheduled setTimeout callback,
which is setCopiedId(null) unconditionally. -/
def step (m : Machine) : UiEvent → Machine
  | UiEvent.input f v =>
    { m with app := { m.app with details := setField f v m.app.details } }
  | UiEvent.clickCollect => { m with app := selectMode ("collect") m.app }
  | UiEvent.clickNegotiate => { m with app := selectMode ("negotiate") m.app }
  | UiEvent.clickGenerate =>
    if m.app.loading then m
    else if m.app.details.amount = "" then
      { m with app := { m.app with error := some validationMsg } }
    else
      { m with app := { m.app with loading := true, error := none, result := none },
               pending := m.pending ++ [buildRequest m.app.details] }
  | UiEvent.settle o =>
    match m.pending with
    | [] => m
    | _ :: rest =>
      { m with app := (settleEffects o).foldl applyEffect m.app, pending := rest }
  | UiEvent.clickCopy v i =>
    { m with app := { m.app with copiedId := some (variantKey v i) },
             timers := m.timers ++ [copyDelayMs],
             clipboard := m.clipboard ++ [v.content] }
  | UiEvent.timerFire =>
    match m.timers with
    | [] => m
    | _ :: rest => { m with app := { m.app with copiedId := none }, timers := rest }

/-- Run a sequence of UI events. -/
def runEvents (m : Machine) (evs : List UiEvent) : Machine :=
  evs.foldl step m

/-- The session right after mount: initial state, nothing in flight, no
timers, nothing copied. -/
def initMachine : Machine where
  app := initAppState
  pending := []
  timers := []
  clipboard := []

/-- Is this event a copy action? -/
def isCopyEv : UiEvent → Bool
  | UiEvent.clickCopy _ _ => true
  | _ => false

/-- Is this effect the outbound network call? -/
def isNetCall : Effect → Bool
  | Effect.networkCall _ => true
  | _ => false

/-- Number of outbound network calls in an effect trace. -/
def countCalls (t : List Effect) : Nat :=
  (t.filter isNetCall).length

/-- Folding the post-settlement effects over any state yields the state with
loading cleared and either the parsed value stored or the generic error set. -/
theorem settleEffects_foldl_eq (o : NetOutcome) (s : AppState) :
    (settleEffects o).foldl applyEffect s =
      match o with
      | NetOutcome.throws => { s with loading := false, error := some genericErrorMsg }
      | NetOutcome.returns t =>
        match parseJson (effText t) with
        | some v => { s with loading := false, result := some v }
        | none => { s with loading := false, error := some genericErrorMsg } := by
  cases o with
  | throws => rfl
  | returns t => cases hp : parseJson (effText t) <;> simp [settleEffects, hp, applyEffect]

/-- The finally block always leaves loading false after settlement. -/
theorem settleEffects_foldl_loading (o : NetOutcome) (s : AppState) :
    ((settleEffects o).foldl applyEffect s).loading = false := by
  rw [settleEffects_foldl_eq]
  cases o with
  | throws => rfl
  | returns t => cases hp : parseJson (effText t) <;> simp [hp]

/-- Settlement never touches the copied indicator. -/
theorem settleEffects_foldl_copiedId (o : NetOutcome) (s : AppState) :
    ((settleEffects o).foldl applyEffect s).copiedId = s.copiedId := by
  rw [settleEffects_foldl_eq]
  cases o with
  | throws => rfl
  | returns t => cases hp : parseJson (effText t) <;> simp [hp]

/-- The state after a generateOutput run with a non-empty amount. -/
theorem runGen_eq (s : AppState) (o : NetOutcome) (h : ¬ s.details.amount = "") :
    runGen s o =
      match o with
      | NetOutcome.throws =>
        { s with loading := false, result := none, error := some genericErrorMsg }
      | NetOutcome.returns t =>
        match parseJson (effText t) with
        | some v => { s with loading := false, result := some v, error := none }
        | none =>
          { s with loading := false, result := none, error := some genericErrorMsg } := by
  have hpre : runGen s o =
      (settleEffects o).foldl applyEffect
        { s with loading := true, error := none, result := none } := by
    simp [runGen, genTrace, h, applyEffect]
  rw [hpre, settleEffects_foldl_eq]

/-- C1: for every situation record whose amount is the empty string, a
generateOutput run surfaces only the local validation error: its whole
effect trace is the one setError call, so no network call is made and the
loading flag is never set. -/
theorem claim_C1_empty_amount_no_call (d : SituationDetails) (o : NetOutcome)
    (h : d.amount = "") :
    genTrace d o = [Effect.setError (some validationMsg)] ∧
    (∀ r, Effect.networkCall r ∉ genTrace d o) ∧
    (∀ b, Effect.setLoading b ∉ genTrace d o) := by
  refine ⟨by simp [genTrace, h], ?_, ?_⟩ <;> intro x <;> simp [genTrace, h]

/-- C1 witness: the initial record has an empty amount and its generate
trace is exactly the validation error. -/
theorem claim_C1_witness :
    genTrace initDetails NetOutcome.throws = [Effect.setError (some validationMsg)] :=
  (claim_C1_empty_amount_no_call initDetails NetOutcome.throws rfl).1

/-- C10: when generate is invoked with an empty amount, the run changes the
error message and nothing else: the previous result, loading flag and every
details field are untouched. -/
theorem claim_C10_empty_amount_only_error (s : AppState) (o : NetOutcome)
    (h : s.details.amount = "") :
    runGen s o = { s with error := some validationMsg } := by
  simp [runGen, genTrace, h, applyEffect]

/-- C10 witness: with a stale stored result and an empty amount, the run
only sets the validation error and the stale result survives. -/
theorem claim_C10_witness :
    runGen { initAppState with result := some (Json.obj []) } NetOutcome.throws =
      { initAppState with result := some (Json.obj []), error := some validationMsg } :=
  claim_C10_empty_amount_only_error { initAppState with result := some (Json.obj []) }
    NetOutcome.throws rfl

/-- A concrete record with a non-empty amount, as in the spec's example. -/
def genDetails : SituationDetails := { initDetails with amount := "₹500", overdue := "3 days" }

/-- A concrete app state about to generate with a non-empty amount. -/
def genAppState : AppState := { initAppState with details := genDetails }

/-- C4: whenever the network call throws or the returned text fails to
parse as JSON, the run ends with the generic error message set and the
stored result unset. -/
theorem claim_C4_fault_generic_error (s : AppState) (o : NetOutcome)
    (hne : ¬ s.details.amount = "")
    (hf : o = NetOutcome.throws ∨
      ∃ t, o = NetOutcome.returns t ∧ parseJson (effText t) = none) :
    (runGen s o).error = some genericErrorMsg ∧ (runGen s o).result = none := by
  rcases hf with rfl | ⟨t, rfl, hp⟩
  · rw [runGen_eq s _ hne]
    exact ⟨rfl, rfl⟩
  · rw [runGen_eq s _ hne]
    simp [hp]

/-- C4 witness: a non-JSON response text yields the generic error and a
null result. -/
theorem claim_C4_witness :
    (runGen genAppState (NetOutcome.returns (some "not json"))).error = some genericErrorMsg ∧
    (runGen genAppState (NetOutcome.returns (some "not json"))).result = none :=
  claim_C4_fault_generic_error genAppState (NetOutcome.returns (some "not json"))
    (by decide) (Or.inr ⟨some "not json", rfl, rfl⟩)

/-- C5: with a non-empty amount, one generateOutput run performs exactly one
outbound network call, whatever the outcome. -/
theorem claim_C5_exactly_one_call (d : SituationDetails) (o : NetOutcome)
    (h : ¬ d.amount = "") :
    countCalls (genTrace d o) = 1 := by
  cases o with
  | throws => simp [countCalls, genTrace, h, settleEffects, isNetCall]
  | returns t =>
    cases hp : parseJson (effText t) <;>
      simp [countCalls, genTrace, h, settleEffects, hp, isNetCall]

/-- C5 witness: the spec's example record makes exactly one call even when
the call faults. -/
theorem claim_C5_witness : countCalls (genTrace genDetails NetOutcome.throws) = 1 :=
  claim_C5_exactly_one_call genDetails NetOutcome.throws (by decide)

/-- C2 counterexample: with the spec's example record, a run whose external
call resolves with an absent text (response.text undefined) still stores a
result — the parse of the fallback literal, an empty object — and that
stored value does not conform to the Result shape. -/
theorem claim_C2_counterexample :
    (genTrace genDetails (NetOutcome.returns none))[4]? =
      some (Effect.setResult (some (Json.obj []))) ∧
    isResultShape (Json.obj []) = false :=
  ⟨rfl, rfl⟩

/-- C2 amended: a run stores a result exactly when the call resolved and
JSON.parse succeeded on the returned text with the fallback literal
substituted for absent or empty text; the stored value is that parse, with
no validation against the Result shape. -/
theorem claim_C2_stored_is_parse (d : SituationDetails) (o : NetOutcome) (v : Json)
    (hmem : Effect.setResult (some v) ∈ genTrace d o) :
    ¬ d.amount = "" ∧
    ∃ t, o = NetOutcome.returns t ∧ parseJson (effText t) = some v := by
  by_cases h : d.amount = ""
  · simp [genTrace, h] at hmem
  · refine ⟨h, ?_⟩
    cases o with
    | throws => simp [genTrace, h, settleEffects] at hmem
    | returns t =>
      cases hp : parseJson (effText t) with
      | none => simp [genTrace, h, settleEffects, hp] at hmem
      | some w =>
        simp [genTrace, h, settleEffects, hp] at hmem
        exact ⟨t, rfl, by rw [hp, hmem]⟩

/-- The example record's trace for a resolved call with absent text. -/
theorem genTrace_genDetails_none :
    genTrace genDetails (NetOutcome.returns none) =
      [Effect.setLoading true, Effect.setError none, Effect.setResult none,
       Effect.networkCall (buildRequest genDetails),
       Effect.setResult (some (Json.obj [])), Effect.setLoading false] := rfl

/-- C2 witness: the stored empty object is exactly the parse of the
fallback text for an absent response. -/
theorem claim_C2_witness :
    ¬ genDetails.amount = "" ∧
    ∃ t, NetOutcome.returns (none : Option String) = NetOutcome.returns t ∧
      parseJson (effText t) = some (Json.obj []) :=
  claim_C2_stored_is_parse genDetails (NetOutcome.returns none) (Json.obj [])
    (by rw [genTrace_genDetails_none]; simp)

/-- A record that selects the custom sentinel and types the sentinel text
itself into the custom field. -/
def sentinelDetails : SituationDetails :=
  { initDetails with
    mode := "negotiate"
    amount := "₹500"
    delayReason := "Other (Custom)"
    customReason := "Other (Custom)" }

/-- C3 counterexample: when the custom free-text field contains the
sentinel text itself, the effective delay reason equals the sentinel
string, so the claim's conjunct that the sentinel never appears as the
effective value is false as stated. -/
theorem claim_C3_counterexample :
    sentinelDetails.delayReason = "Other (Custom)" ∧
    finalReason sentinelDetails = "Other (Custom)" :=
  ⟨rfl, rfl⟩

/-- C3 amended: when delayReason (respectively proposedSolution) equals the
sentinel, the effective value is the custom free-text field — the dropdown
sentinel itself is always replaced — and in negotiate mode the outbound
prompt embeds exactly those effective values. -/
theorem claim_C3_custom_override (d : SituationDetails) :
    (d.delayReason = "Other (Custom)" → finalReason d = d.customReason) ∧
    (d.proposedSolution = "Other (Custom)" → finalSolution d = d.customSolution) ∧
    (d.mode = "negotiate" →
      userPrompt d = promptHead d ++
        ("Reason for Delay: " ++ finalReason d ++ "\nProposed Solution: " ++ finalSolution d) ++
        promptTail d) := by
  refine ⟨fun hr => by simp [finalReason, hr], fun hs => by simp [finalSolution, hs], fun hm => ?_⟩
  simp [userPrompt, hm, negotiateBlock]

/-- The spec's negotiate-mode example: a custom reason of Flight delay. -/
def negDetails : SituationDetails :=
  { initDetails with
    mode := "negotiate"
    amount := "₹500"
    overdue := "3 days"
    delayReason := "Other (Custom)"
    customReason := "Flight delay" }

/-- C3 witness: in the spec's example, the effective reason is the custom
text and the prompt embeds it. -/
theorem claim_C3_witness :
    finalReason negDetails = negDetails.customReason ∧
    userPrompt negDetails = promptHead negDetails ++
      ("Reason for Delay: " ++ finalReason negDetails ++
       "\nProposed Solution: " ++ finalSolution negDetails) ++ promptTail negDetails :=
  ⟨(claim_C3_custom_override negDetails).1 rfl,
   (claim_C3_custom_override negDetails).2.2 rfl⟩

/-- C6: both mode buttons act through selectMode, which sets the mode field,
clears any previously stored result, and leaves every other field of the
situation record — and the loading, error and copied-indicator state —
unchanged. -/
theorem claim_C6_mode_switch (m : Machine) (mode : String) :
    (step m UiEvent.clickCollect).app = selectMode ("collect") m.app ∧
    (step m UiEvent.clickNegotiate).app = selectMode ("negotiate") m.app ∧
    selectMode mode m.app =
      { m.app with details := { m.app.details with mode := mode }, result := none } :=
  ⟨rfl, rfl, rfl⟩

/-- C7: the instruction set is a fixed template around one of exactly two
tone/vocabulary literals selected by the language field alone, so any two
records that agree on language get character-for-character identical
system instructions. -/
theorem claim_C7_instruction_language_only (d1 d2 : SituationDetails)
    (h : d1.language = d2.language) :
    systemInstruction d1 = systemInstruction d2 ∧
    systemInstruction d1 = sysInstrPre ++ languageInstruction d1.language ++ sysInstrPost ∧
    (languageInstruction d1.language = hinglishInstruction ∨
      languageInstruction d1.language = englishInstruction) ∧
    hinglishInstruction ≠ englishInstruction := by
  refine ⟨by rw [systemInstruction, systemInstruction, h], rfl, ?_, by decide⟩
  by_cases hl : d1.language = "Hinglish" <;> simp [languageInstruction, hl]

/-- C7 witness: two records differing in every field but language get the
same instruction set. -/
theorem claim_C7_witness :
    systemInstruction initDetails = systemInstruction negDetails :=
  (claim_C7_instruction_language_only initDetails negDetails rfl).1

/-- The single-in-flight invariant: exactly one request is pending while
loading is shown, none otherwise. -/
def GenInv (m : Machine) : Prop :=
  m.pending.length = if m.app.loading then 1 else 0

/-- Every UI event preserves the single-in-flight invariant. -/
theorem genInv_step (m : Machine) (e : UiEvent) (h : GenInv m) : GenInv (step m e) := by
  unfold GenInv at h ⊢
  cases e with
  | input f v => exact h
  | clickCollect => exact h
  | clickNegotiate => exact h
  | clickGenerate =>
    cases hl : m.app.loading with
    | true => simpa [step, hl] using h
    | false =>
      rw [hl] at h
      simp at h
      by_cases ha : m.app.details.amount = ""
      · simpa [step, hl, ha] using h
      · simp [step, hl, ha, h]
  | settle o =>
    cases hp : m.pending with
    | nil => simpa [step, hp] using h
    | cons r rest =>
      rw [hp] at h
      cases hl : m.app.loading with
      | true =>
        rw [hl] at h
        simp at h
        simp [step, hp, settleEffects_foldl_loading, h]
      | false =>
        rw [hl] at h
        simp at h
  | clickCopy v i => exact h
  | timerFire =>
    cases ht : m.timers with
    | nil => simpa [step, ht] using h
    | cons a rest => simpa [step, ht] using h

/-- The single-in-flight invariant holds along any run. -/
theorem genInv_runEvents (m : Machine) (evs : List UiEvent) (h : GenInv m) :
    GenInv (runEvents m evs) := by
  induction evs generalizing m with
  | nil => exact h
  | cons e rest ih => exact ih (step m e) (genInv_step m e h)

/-- While loading, the disabled generate button makes a click a no-op. -/
theorem clickGenerate_noop_while_loading (m : Machine) (hl : m.app.loading = true) :
    step m UiEvent.clickGenerate = m := by
  simp [step, hl]

/-- Loading can only fall from true to false through a settle event. -/
theorem loading_false_only_by_settle (m : Machine) (e : UiEvent)
    (hl : m.app.loading = true) (hf : (step m e).app.loading = false) :
    ∃ o, e = UiEvent.settle o := by
  cases e with
  | input f v => simp [step, hl] at hf
  | clickCollect => simp [step, selectMode, hl] at hf
  | clickNegotiate => simp [step, selectMode, hl] at hf
  | clickGenerate => simp [step, hl] at hf
  | settle o => exact ⟨o, rfl⟩
  | clickCopy v i => simp [step, hl] at hf
  | timerFire =>
    cases ht : m.timers with
    | nil => simp [step, ht, hl] at hf
    | cons a rest => simp [step, ht, hl] at hf

/-- C8: along every sequence of UI events from mount, at most one request is
in flight; one is in flight exactly while loading is shown; clicking the
disabled generate trigger while loading is a no-op; and loading clears only
when the in-flight call settles. -/
theorem claim_C8_single_inflight (evs : List UiEvent) :
    (runEvents initMachine evs).pending.length ≤ 1 ∧
    ((runEvents initMachine evs).app.loading = true ↔
      (runEvents initMachine evs).pending.length = 1) ∧
    ((runEvents initMachine evs).app.loading = true →
      step (runEvents initMachine evs) UiEvent.clickGenerate = runEvents initMachine evs) ∧
    (∀ e, (runEvents initMachine evs).app.loading = true →
      (step (runEvents initMachine evs) e).app.loading = false →
      ∃ o, e = UiEvent.settle o) := by
  have h : GenInv (runEvents initMachine evs) := genInv_runEvents initMachine evs rfl
  unfold GenInv at h
  refine ⟨?_, ?_, clickGenerate_noop_while_loading (runEvents initMachine evs),
    fun e => loading_false_only_by_settle (runEvents initMachine evs) e⟩
  · rw [h]; cases (runEvents initMachine evs).app.loading <;> simp
  · cases hl : (runEvents initMachine evs).app.loading with
    | true => rw [hl] at h; simp at h; simp [hl, h]
    | false => rw [hl] at h; simp at h; simp [hl, h]

/-- A small event run: set the amount, click generate, click again while
loading. -/
def demoEvs : List UiEvent :=
  [UiEvent.input FieldName.amount "₹500", UiEvent.clickGenerate, UiEvent.clickGenerate]

/-- C8 witness: after a click that puts one request in flight, the pending
count is at most one and a second click changes nothing. -/
theorem claim_C8_witness :
    (runEvents initMachine demoEvs).pending.length ≤ 1 ∧
    step (runEvents initMachine demoEvs) UiEvent.clickGenerate = runEvents initMachine demoEvs :=
  ⟨(claim_C8_single_inflight demoEvs).1,
   (claim_C8_single_inflight demoEvs).2.2.1 rfl⟩

/-- The copy-acknowledgement invariant: either no indicator is shown or at
least one clear timer is still scheduled. -/
def AckInv (m : Machine) : Prop :=
  m.app.copiedId = none ∨ m.timers ≠ []

/-- Every event other than a copy preserves the acknowledgement invariant. -/
theorem ackInv_step_noncopy (m : Machine) (e : UiEvent) (he : isCopyEv e = false)
    (h : AckInv m) : AckInv (step m e) := by
  cases e with
  | input f v => exact h
  | clickCollect => exact h
  | clickNegotiate => exact h
  | clickGenerate =>
    cases hl : m.app.loading with
    | true => simpa [step, hl] using h
    | false =>
      by_cases ha : m.app.details.amount = "" <;> simpa [step, hl, ha] using h
  | settle o =>
    cases hp : m.pending with
    | nil => simpa [step, hp] using h
    | cons r rest =>
      rcases h with h | h
      · exact Or.inl (by simp [step, hp, settleEffects_foldl_copiedId, h])
      · exact Or.inr (by simpa [step, hp] using h)
  | clickCopy v i => exact Bool.noConfusion he
  | timerFire =>
    cases ht : m.timers with
    | nil => simpa [step, ht] using h
    | cons a rest => exact Or.inl (by simp [step, ht])

/-- The acknowledgement invariant survives any copy-free run. -/
theorem ackInv_run_noncopy (m : Machine) (evs : List UiEvent)
    (hnc : evs.all (fun e => !isCopyEv e) = true) (h : AckInv m) :
    AckInv (runEvents m evs) := by
  induction evs generalizing m with
  | nil => exact h
  | cons e rest ih =>
    rw [List.all_cons, Bool.and_eq_true] at hnc
    have h1 : isCopyEv e = false := by
      have := hnc.1
      cases hcc : isCopyEv e
      · rfl
      · rw [hcc] at this; simp at this
    exact ih (step m e) hnc.2 (ackInv_step_noncopy m e h1 h)

/-- When a scheduled timer fires, the indicator is none afterwards. -/
theorem timerFire_clears (m : Machine) (h : AckInv m) :
    (step m UiEvent.timerFire).app.copiedId = none := by
  cases ht : m.timers with
  | nil =>
    rcases h with h | h
    · simpa [step, ht] using h
    · exact absurd ht h
  | cons a rest => simp [step, ht]

/-- C9: a copy click writes the variant content to the clipboard, keys the
indicator by the variant identity and index, and schedules a 2000 ms clear
timer; after any copy-free continuation, the indicator is none once a
timer fires. -/
theorem claim_C9_copy_acknowledgement (m : Machine) (v : GeneratedMessage) (i : Nat)
    (evs : List UiEvent) (hnc : evs.all (fun e => !isCopyEv e) = true) :
    (step m (UiEvent.clickCopy v i)).clipboard = m.clipboard ++ [v.content] ∧
    (step m (UiEvent.clickCopy v i)).app.copiedId = some (variantKey v i) ∧
    (step m (UiEvent.clickCopy v i)).timers = m.timers ++ [copyDelayMs] ∧
    (runEvents (step m (UiEvent.clickCopy v i))
        (evs ++ [UiEvent.timerFire])).app.copiedId = none := by
  refine ⟨rfl, rfl, rfl, ?_⟩
  have h0 : AckInv (step m (UiEvent.clickCopy v i)) := Or.inr (by simp [step])
  have h1 : AckInv (runEvents (step m (UiEvent.clickCopy v i)) evs) :=
    ackInv_run_noncopy _ evs hnc h0
  have h2 : runEvents (step m (UiEvent.clickCopy v i)) (evs ++ [UiEvent.timerFire]) =
      step (runEvents (step m (UiEvent.clickCopy v i)) evs) UiEvent.timerFire := by
    simp [runEvents, List.foldl_append]
  rw [h2]
  exact timerFire_clears _ h1

/-- A concrete generated variant as rendered in a card. -/
def demoVariant : GeneratedMessage where
  variant := "VARIANT A"
  title := "Warm Reminder"
  content := "Hello bhai, ek chhota reminder."

/-- C9 witness: a concrete copy at index zero records the content, keys the
indicator, and the indicator is clear after the timer fires. -/
theorem claim_C9_witness :
    (step initMachine (UiEvent.clickCopy demoVariant 0)).clipboard = [demoVariant.content] ∧
    (step initMachine (UiEvent.clickCopy demoVariant 0)).app.copiedId =
      some (variantKey demoVariant 0) ∧
    (runEvents (step initMachine (UiEvent.clickCopy demoVariant 0))
        ([UiEvent.input FieldName.otherInfo "x"] ++ [UiEvent.timerFire])).app.copiedId = none := by
  obtain ⟨h1, h2, h3, h4⟩ := claim_C9_copy_acknowledgement initMachine demoVariant 0
    [UiEvent.input FieldName.otherInfo "x"] rfl
  exact ⟨h1, h2, h4⟩
